import Mathlib

/-!
A shallow embedding of `solar_panel_telemetry.py` and a development checking the
specification's claims about it.

Modelling conventions:
* Python floats are modelled as real numbers, `math.sin` as `Real.sin` and
  `x ** 1.5` as real `rpow`.
* Every call of `random.random()` / `random.uniform(a, b)` inside
  `compute_telemetry` and `assign_fault` is modelled by an explicit parameter
  (a field of `Draws`); claims quantify over the drawn values, constrained to
  the interval the corresponding call site draws from.
* The process-wide generator used by `generate_panel_fleet` is modelled as a
  state `RandomState` (current seed and position in the stream) together with a
  function `gen : seed -> position -> value` giving the underlying stream of
  unit draws; `random.seed(seed)` resets the state to `(seed, 0)`.
* `round(x, n)` is modelled by `pyRound` (round half to even, as Python).
* Python strings handed to `parse_daylight_window` are modelled as `List Char`,
  `str.split` by `pySplitOn`, and `int(...)` by `pyIntOfChars` (ASCII
  whitespace stripping, optional sign, decimal digits with single underscores
  between digits).
* Timestamps enter the engine only through `seconds_since_midnight`, which
  reads the hour/minute/second fields; `Timestamp` keeps exactly those.  The
  ISO formatting of `timestamp_utc` is output serialization and is not
  modelled.
-/

namespace SolarPanelTelemetry

/-- Model of a timestamp: the engine reads a timestamp only through
`seconds_since_midnight`, i.e. through its hour, minute and second fields. -/
structure Timestamp where
  hour : ℕ
  minute : ℕ
  second : ℕ

/-- Translation of `seconds_since_midnight` (line 106). -/
def secondsSinceMidnight (t : Timestamp) : ℕ :=
  t.hour * 3600 + t.minute * 60 + t.second

/-- Translation of the `PanelSpec` dataclass (lines 40-51). -/
structure PanelSpec where
  panel_id : String
  p_stc_w : ℝ
  v_mppt : ℝ
  i_stc_a : ℝ
  temp_coeff_p : ℝ
  degradation_per_day : ℝ
  efficiency_jitter : ℝ
  orientation_deg : ℝ
  tilt_deg : ℝ
  string_id : String

/-- Translation of `FAULT_CATALOG` (lines 53-60), in source order. -/
def FAULT_CATALOG : List (String × String × ℝ) :=
  [("NONE", "OK", 0.0),
   ("SHADING", "WARNING", 0.0015),
   ("HOTSPOT", "FAULT", 0.0005),
   ("STRING_OPEN", "FAULT", 0.0004),
   ("INVERTER_TRIP", "FAULT", 0.0003),
   ("SOILING", "WARNING", 0.0008)]

/-- Translation of `smoothstep` (lines 109-111). -/
def smoothstep (x : ℝ) : ℝ := 6 * x ^ 5 - 15 * x ^ 4 + 10 * x ^ 3

/-- Translation of `diurnal_irradiance_factor` (lines 113-131).  The daylight
window bounds are the two seconds-from-midnight integers. -/
noncomputable def diurnalIrradianceFactor (ts : Timestamp) (dlStart dlEnd : ℤ) : ℝ :=
  if (secondsSinceMidnight ts : ℤ) ≤ dlStart ∨ (secondsSinceMidnight ts : ℤ) ≥ dlEnd then 0
  else
    let x : ℝ := ((secondsSinceMidnight ts : ℝ) - (dlStart : ℝ)) / ((dlEnd : ℝ) - (dlStart : ℝ))
    let base := Real.sin (Real.pi * x)
    if base < 0 then 0
    else max 0 (min 1 ((base ^ (1.5 : ℝ)) * (0.7 + 0.3 * smoothstep x)))

/-- Translation of `ambient_temperature_c` (lines 142-149). -/
noncomputable def ambientTemperatureC (ts : Timestamp) (base : ℝ := 26.0) : ℝ :=
  base + 8.0 * Real.sin ((secondsSinceMidnight ts : ℝ) / 86400.0 * 2 * Real.pi - Real.pi / 6)

/-- Translation of `panel_cell_temp_c` (lines 151-156). -/
noncomputable def panelCellTempC (ambientC irradianceWm2 : ℝ) : ℝ :=
  ambientC + irradianceWm2 / 800.0 * 20.0

/-- Translation of `orientation_tilt_modifier` (lines 171-178). -/
noncomputable def orientationTiltModifier (orientationDeg tiltDeg : ℝ) : ℝ :=
  let orientScore := 1.0 - |180 - orientationDeg| / 180.0 * 0.1
  let tiltScore := 1.0 - |25 - tiltDeg| / 25.0 * 0.08
  max 0.85 (min 1.05 (orientScore * tiltScore))

/-- The accumulator loop of `assign_fault` (lines 163-169): walk the catalog
accumulating probability mass, return the first entry whose cumulative mass
reaches the sample `r`; default to NONE/OK. -/
noncomputable def assignFaultAux (r : ℝ) : ℝ → List (String × String × ℝ) → String × String
  | _, [] => ("NONE", "OK")
  | acc, (fault, status, p) :: rest =>
      let acc2 := acc + p
      if r ≤ acc2 then (fault, status) else assignFaultAux r acc2 rest

/-- Translation of `assign_fault` (lines 158-169); `r` is the value of the
single `random.random()` draw. -/
noncomputable def assignFault (r : ℝ) : String × String :=
  assignFaultAux r 0 FAULT_CATALOG

/-- Splitting of a Python string (as a character list) on a one-character
separator, as `str.split(sep)`: `""` gives `[""]`, adjacent separators give
empty fields. -/
def pySplitOn (sep : Char) : List Char → List (List Char)
  | [] => [[]]
  | c :: rest =>
      match pySplitOn sep rest with
      | [] => [[c]]
      | h :: t => if c = sep then [] :: h :: t else (c :: h) :: t

/-- Whether a character is ASCII whitespace stripped by Python's `int`. -/
def isPyWs (c : Char) : Bool :=
  c = ' ' || c = '\t' || c = '\n' || c = '\r' || c = '\x0B' || c = '\x0C'

/-- Both-ends whitespace stripping, as Python's `int` applies to its input. -/
def stripPyWs (l : List Char) : List Char :=
  ((l.dropWhile isPyWs).reverse.dropWhile isPyWs).reverse

/-- Value of an ASCII digit character. -/
def digitVal (c : Char) : ℕ := c.toNat - 48

/-- Digit run of Python's `int` after its first digit: decimal digits with
single underscores allowed between digits. -/
def pyDigitsAux : ℕ → List Char → Option ℕ
  | acc, [] => some acc
  | acc, '_' :: c :: rest =>
      if c.isDigit then pyDigitsAux (acc * 10 + digitVal c) rest else none
  | acc, c :: rest =>
      if c.isDigit then pyDigitsAux (acc * 10 + digitVal c) rest else none

/-- Nonempty digit run of Python's `int`: must start with a digit. -/
def pyDigits : List Char → Option ℕ
  | [] => none
  | c :: rest => if c.isDigit then pyDigitsAux (digitVal c) rest else none

/-- Model of Python's `int(string)`: strip whitespace, optional sign, decimal
digits.  Returns `none` where `int` raises `ValueError`. -/
def pyIntOfChars (l : List Char) : Option ℤ :=
  match stripPyWs l with
  | '+' :: rest => (pyDigits rest).map fun n => (n : ℤ)
  | '-' :: rest => (pyDigits rest).map fun n => -(n : ℤ)
  | rest => (pyDigits rest).map fun n => (n : ℤ)

/-- The `try` body of `parse_daylight_window` (lines 95-101): `none` exactly
where some statement of the body raises (wrong number of `-` or `:` separated
parts, or a field `int` cannot parse). -/
def parseDaylightWindowCore (daylight : List Char) : Option (ℤ × ℤ) :=
  match pySplitOn '-' daylight with
  | [s, e] =>
      match pySplitOn ':' s, pySplitOn ':' e with
      | [shs, sms], [ehs, ems] =>
          match pyIntOfChars shs, pyIntOfChars sms, pyIntOfChars ehs, pyIntOfChars ems with
          | some sh, some sm, some eh, some em =>
              some (sh * 3600 + sm * 60, eh * 3600 + em * 60)
          | _, _, _, _ => none
      | _, _ => none
  | _ => none

/-- Translation of `parse_daylight_window` (lines 91-104): the `except` branch
returns the 06:00-18:00 default. -/
def parseDaylightWindow (daylight : List Char) : ℤ × ℤ :=
  (parseDaylightWindowCore daylight).getD (6 * 3600, 18 * 3600)

/-- Whether the daylight string parses as `HH:MM-HH:MM` (the `try` body of
`parse_daylight_window` runs to completion). -/
def parsesAsWindow (daylight : List Char) : Bool :=
  (parseDaylightWindowCore daylight).isSome

/-- State of the process-wide random generator: the seed it was last seeded
with and the position in that seed's stream of unit draws. -/
structure RandomState where
  seedVal : ℤ
  pos : ℕ

/-- One `random.random()` draw from the stream `gen`: returns the next unit
value and advances the state. -/
def nextUnit (gen : ℤ → ℕ → ℝ) (s : RandomState) : ℝ × RandomState :=
  (gen s.seedVal s.pos, ⟨s.seedVal, s.pos + 1⟩)

/-- One `random.uniform(a, b)` draw: `a + (b - a) * random.random()`. -/
noncomputable def uniformDraw (gen : ℤ → ℕ → ℝ) (a b : ℝ) (s : RandomState) : ℝ × RandomState :=
  let u := nextUnit gen s
  (a + (b - a) * u.1, u.2)

/-- One `random.choice(xs)` draw, modelled as consuming one unit draw and
indexing the list with it. -/
noncomputable def pyChoice (gen : ℤ → ℕ → ℝ) (xs : List ℝ) (dflt : ℝ) (s : RandomState) :
    ℝ × RandomState :=
  let u := nextUnit gen s
  (xs.getD (⌊u.1 * (xs.length : ℝ)⌋).toNat dflt, u.2)

/-- Zero-padding of a natural number to a given width, as Python's `{n:0Nd}`
format for non-negative `n`. -/
def zeroPad (w : ℕ) (n : ℕ) : String :=
  let s := toString n
  String.mk (List.replicate (w - s.length) '0') ++ s

/-- The body of the fleet-generation loop (lines 183-205) for panel index `i`:
ten draws in the source's fixed order, then the `PanelSpec`. -/
noncomputable def generatePanel (gen : ℤ → ℕ → ℝ) (i : ℕ) (s : RandomState) :
    PanelSpec × RandomState :=
  let d1 := uniformDraw gen 370 430 s
  let d2 := uniformDraw gen 33 40 d1.2
  let d3 := uniformDraw gen 0.95 1.05 d2.2
  let d4 := uniformDraw gen (-0.0045) (-0.0035) d3.2
  let d5 := uniformDraw gen 0.00003 0.00007 d4.2
  let d6 := uniformDraw gen 0.98 1.02 d5.2
  let d7 := pyChoice gen [150, 165, 180, 195, 210] 150 d6.2
  let d8 := uniformDraw gen (-5) 5 d7.2
  let d9 := pyChoice gen [15, 20, 25, 30, 35] 15 d8.2
  let d10 := uniformDraw gen (-2) 2 d9.2
  ({ panel_id := "P" ++ zeroPad 5 (i + 1)
     p_stc_w := d1.1
     v_mppt := d2.1
     i_stc_a := d1.1 / d2.1 * d3.1
     temp_coeff_p := d4.1
     degradation_per_day := d5.1
     efficiency_jitter := d6.1
     orientation_deg := d7.1 + d8.1
     tilt_deg := d9.1 + d10.1
     string_id := "S" ++ zeroPad 2 (1 + i / 20) }, d10.2)

/-- The fleet loop: `k` panels starting at index `i`, threading the generator
state. -/
noncomputable def generateFleetAux (gen : ℤ → ℕ → ℝ) :
    ℕ → ℕ → RandomState → List PanelSpec × RandomState
  | 0, _, s => ([], s)
  | Nat.succ k, i, s =>
      let ps := generatePanel gen i s
      let rest := generateFleetAux gen k (i + 1) ps.2
      (ps.1 :: rest.1, rest.2)

/-- Translation of `generate_panel_fleet` (lines 180-206).  The incoming
generator state `s0` is discarded because the function begins with
`random.seed(seed)`, which resets the stream to `(seed, 0)`. -/
noncomputable def generatePanelFleet (gen : ℤ → ℕ → ℝ) (n : ℕ) (seed : ℤ)
    (_s0 : RandomState) : List PanelSpec × RandomState :=
  generateFleetAux gen n 0 ⟨seed, 0⟩

/-- Python's `round` to an integer: round half to even. -/
noncomputable def pyRound (x : ℝ) : ℤ :=
  if x - (⌊x⌋ : ℝ) = 1 / 2 then (if 2 ∣ ⌊x⌋ then ⌊x⌋ else ⌊x⌋ + 1) else round x

/-- Python's `round(x, n)` for `n` decimal places. -/
noncomputable def roundTo (n : ℕ) (x : ℝ) : ℝ :=
  (pyRound (x * 10 ^ n) : ℝ) / 10 ^ n

/-- The random draws `compute_telemetry` may consume, one field per call site:
`noise` for `uniform(0.98, 1.02)` (line 239), `vOff` for `uniform(0.92, 1.05)`
(line 246), `vOn` for `uniform(0.97, 1.03)` (line 249), `faultR` for the
`random.random()` inside `assign_fault`, and the four fault-effect draws of
lines 261-273. -/
structure Draws where
  noise : ℝ
  vOff : ℝ
  vOn : ℝ
  faultR : ℝ
  shading : ℝ
  hotspotP : ℝ
  hotspotCell : ℝ
  soiling : ℝ

/-- Each draw lies in the interval its call site draws from. -/
def Draws.InRange (d : Draws) : Prop :=
  0.98 ≤ d.noise ∧ d.noise ≤ 1.02 ∧
  0.92 ≤ d.vOff ∧ d.vOff ≤ 1.05 ∧
  0.97 ≤ d.vOn ∧ d.vOn ≤ 1.03 ∧
  0 ≤ d.faultR ∧ d.faultR < 1 ∧
  0.6 ≤ d.shading ∧ d.shading ≤ 0.9 ∧
  0.4 ≤ d.hotspotP ∧ d.hotspotP ≤ 0.8 ∧
  3 ≤ d.hotspotCell ∧ d.hotspotCell ≤ 8 ∧
  0.8 ≤ d.soiling ∧ d.soiling ≤ 0.95

/-- The telemetry record (lines 286-300) without the serialized timestamp
string, which is output formatting outside the model. -/
structure TelemetryRecord where
  panel_id : String
  string_id : String
  status : String
  fault : String
  power_w : ℝ
  voltage_v : ℝ
  current_a : ℝ
  irradiance_wm2 : ℝ
  ambient_temp_c : ℝ
  cell_temp_c : ℝ
  orientation_deg : ℝ
  tilt_deg : ℝ

/-- Line 219 of `compute_telemetry`: `irr = 1000.0 * sun_f * cloud_factor`. -/
noncomputable def irradianceWm2 (ts : Timestamp) (dlStart dlEnd : ℤ) (cloudFactor : ℝ) : ℝ :=
  1000.0 * diurnalIrradianceFactor ts dlStart dlEnd * cloudFactor

/-- Lines 222-223: cell temperature before any fault side effect. -/
noncomputable def cellTempBaseC (ts : Timestamp) (dlStart dlEnd : ℤ) (cloudFactor : ℝ) : ℝ :=
  panelCellTempC (ambientTemperatureC ts) (irradianceWm2 ts dlStart dlEnd cloudFactor)

/-- Lines 226-242: the clamped DC power `p_dc` before fault side effects;
`noise` is the `uniform(0.98, 1.02)` draw of line 239. -/
noncomputable def pDcW (spec : PanelSpec) (ts : Timestamp) (dlStart dlEnd : ℤ)
    (dayIndex : ℕ) (cloudFactor : ℝ) (noise : ℝ) : ℝ :=
  let irr := irradianceWm2 ts dlStart dlEnd cloudFactor
  let pRaw := spec.p_stc_w * (irr / 1000.0) * spec.efficiency_jitter *
    orientationTiltModifier spec.orientation_deg spec.tilt_deg *
    (1.0 - spec.degradation_per_day) ^ dayIndex
  let pTemp := pRaw * (1.0 + spec.temp_coeff_p * (cellTempBaseC ts dlStart dlEnd cloudFactor - 25.0))
  max 0.0 (min (spec.p_stc_w * 1.10) (pTemp * noise))

/-- Lines 245-250: the MPPT voltage (the current assigned alongside it is dead
code, since lines 276-279 always reassign the current before it is read). -/
noncomputable def vInternal (spec : PanelSpec) (ts : Timestamp) (dlStart dlEnd : ℤ)
    (dayIndex : ℕ) (cloudFactor : ℝ) (d : Draws) : ℝ :=
  if pDcW spec ts dlStart dlEnd dayIndex cloudFactor d.noise ≤ 0.1 then spec.v_mppt * d.vOff
  else spec.v_mppt * d.vOn

/-- Lines 257-273: the power after the fault side effects. -/
noncomputable def pAfterFaultW (spec : PanelSpec) (ts : Timestamp) (dlStart dlEnd : ℤ)
    (dayIndex : ℕ) (cloudFactor : ℝ) (d : Draws) : ℝ :=
  let p := pDcW spec ts dlStart dlEnd dayIndex cloudFactor d.noise
  let fault := (assignFault d.faultR).1
  if fault ≠ "NONE" then
    if fault = "SHADING" then p * d.shading
    else if fault = "HOTSPOT" then p * d.hotspotP
    else if fault = "STRING_OPEN" then 0.0
    else if fault = "INVERTER_TRIP" then 0.0
    else if fault = "SOILING" then p * d.soiling
    else p
  else p

/-- Lines 262-264: the cell temperature after the HOTSPOT side effect. -/
noncomputable def cellTempFinalC (ts : Timestamp) (dlStart dlEnd : ℤ) (cloudFactor : ℝ)
    (d : Draws) : ℝ :=
  if (assignFault d.faultR).1 = "HOTSPOT" then
    cellTempBaseC ts dlStart dlEnd cloudFactor + d.hotspotCell
  else cellTempBaseC ts dlStart dlEnd cloudFactor

/-- Translation of `compute_telemetry` (lines 208-300): assembles the record
from the staged values, including the night noise floor on irradiance (line
253), the current recomputation (lines 276-279), the non-negativity clamps
(lines 282-284) and the per-field rounding (lines 292-299). -/
noncomputable def computeTelemetry (spec : PanelSpec) (ts : Timestamp) (dlStart dlEnd : ℤ)
    (dayIndex : ℕ) (cloudFactor : ℝ) (d : Draws) : TelemetryRecord :=
  let irr := irradianceWm2 ts dlStart dlEnd cloudFactor
  let v := vInternal spec ts dlStart dlEnd dayIndex cloudFactor d
  let p2 := pAfterFaultW spec ts dlStart dlEnd dayIndex cloudFactor d
  let cur := if v > 0 then p2 / v else 0.0
  { panel_id := spec.panel_id
    string_id := spec.string_id
    status := (assignFault d.faultR).2
    fault := (assignFault d.faultR).1
    power_w := roundTo 2 (max 0.0 p2)
    voltage_v := roundTo 2 (max 0.0 v)
    current_a := roundTo 3 (max 0.0 cur)
    irradiance_wm2 := roundTo 1 (if irr < 1.0 then 0.0 else irr)
    ambient_temp_c := roundTo 2 (ambientTemperatureC ts)
    cell_temp_c := roundTo 2 (cellTempFinalC ts dlStart dlEnd cloudFactor d)
    orientation_deg := roundTo 1 spec.orientation_deg
    tilt_deg := roundTo 1 spec.tilt_deg }

/-- Noon of the default daylight window, used as concrete input. -/
def noonTs : Timestamp := ⟨12, 0, 0⟩

/-- A timestamp before the default window opens, used as concrete input. -/
def nightTs : Timestamp := ⟨1, 0, 0⟩

/-- A concrete panel spec whose `1.10 * p_stc_w` cap is not a two-decimal
number, with a large efficiency jitter so the cap binds. -/
noncomputable def overSpec : PanelSpec :=
  { panel_id := "P00001", p_stc_w := 400.005, v_mppt := 35, i_stc_a := 12,
    temp_coeff_p := 0, degradation_per_day := 0, efficiency_jitter := 2,
    orientation_deg := 180, tilt_deg := 25, string_id := "S01" }

/-- A concrete in-range draw vector whose fault sample lands on NONE. -/
noncomputable def baseDraws : Draws :=
  { noise := 1, vOff := 1, vOn := 1, faultR := 1 / 2,
    shading := 0.7, hotspotP := 0.5, hotspotCell := 5, soiling := 0.9 }

/-- A concrete in-range draw vector whose fault sample lands on STRING_OPEN. -/
noncomputable def stringOpenDraws : Draws :=
  { noise := 1, vOff := 1, vOn := 1, faultR := 0.0022,
    shading := 0.7, hotspotP := 0.5, hotspotCell := 5, soiling := 0.9 }

/-- A concrete unremarkable panel spec, used as witness input. -/
noncomputable def plainSpec : PanelSpec :=
  { panel_id := "P00002", p_stc_w := 400, v_mppt := 35, i_stc_a := 12,
    temp_coeff_p := -0.004, degradation_per_day := 0.00005, efficiency_jitter := 1,
    orientation_deg := 180, tilt_deg := 25, string_id := "S01" }

/-- A malformed daylight string (three `-`-separated parts). -/
def badWindowChars : List Char :=
  ['n', 'o', 't', '-', 'a', '-', 'w', 'i', 'n', 'd', 'o', 'w']

/-! Helper lemmas about the rounding model. -/

theorem pyRound_nonneg {x : ℝ} (hx : 0 ≤ x) : 0 ≤ pyRound x := by
  have hfl : (0 : ℤ) ≤ ⌊x⌋ := Int.floor_nonneg.mpr hx
  rw [pyRound]
  split_ifs with h1 h2
  · exact hfl
  · omega
  · rw [round_eq]
    exact Int.floor_nonneg.mpr (by linarith)

theorem pyRound_le_add_half (x : ℝ) : (pyRound x : ℝ) ≤ x + 1 / 2 := by
  rw [pyRound]
  split_ifs with h1 h2
  · linarith [Int.floor_le x]
  · push_cast
    linarith
  · rw [round_eq]
    exact le_trans (Int.floor_le (x + 1 / 2)) (le_refl _)

theorem pyRound_zero : pyRound 0 = 0 := by
  rw [pyRound, if_neg (by norm_num), round_zero]

theorem roundTo_nonneg (n : ℕ) {x : ℝ} (hx : 0 ≤ x) : 0 ≤ roundTo n x := by
  rw [roundTo]
  have h10 : (0 : ℝ) < 10 ^ n := by positivity
  have := pyRound_nonneg (x := x * 10 ^ n) (by positivity)
  positivity

theorem roundTo_le_add (n : ℕ) (x : ℝ) : roundTo n x ≤ x + 1 / (2 * 10 ^ n) := by
  rw [roundTo]
  have h10 : (0 : ℝ) < 10 ^ n := by positivity
  rw [div_le_iff₀ h10]
  have := pyRound_le_add_half (x * 10 ^ n)
  have hexp : (x + 1 / (2 * 10 ^ n)) * 10 ^ n = x * 10 ^ n + 1 / 2 := by
    field_simp
    ring
  rw [hexp]
  exact this

theorem roundTo_zero (n : ℕ) : roundTo n 0 = 0 := by
  rw [roundTo, zero_mul, pyRound_zero]
  norm_num

/-! Helper lemmas characterizing `assignFault` on each sample interval:
the cumulative masses along the catalog are 0, 0.0015, 0.0020, 0.0024,
0.0027, 0.0035. -/

theorem assignFault_none_left {r : ℝ} (h : r ≤ 0) : assignFault r = ("NONE", "OK") := by
  simp only [assignFault, FAULT_CATALOG, assignFaultAux]
  split_ifs with h1 h2 h3 h4 h5 h6 <;> first | rfl | (exfalso; norm_num at *; linarith)

theorem assignFault_shading {r : ℝ} (h1 : 0 < r) (h2 : r ≤ 0.0015) :
    assignFault r = ("SHADING", "WARNING") := by
  simp only [assignFault, FAULT_CATALOG, assignFaultAux]
  split_ifs with a1 a2 a3 a4 a5 a6 <;> first | rfl | (exfalso; norm_num at *; linarith)

theorem assignFault_hotspot {r : ℝ} (h1 : 0.0015 < r) (h2 : r ≤ 0.0020) :
    assignFault r = ("HOTSPOT", "FAULT") := by
  simp only [assignFault, FAULT_CATALOG, assignFaultAux]
  split_ifs with a1 a2 a3 a4 a5 a6 <;> first | rfl | (exfalso; norm_num at *; linarith)

theorem assignFault_stringOpen {r : ℝ} (h1 : 0.0020 < r) (h2 : r ≤ 0.0024) :
    assignFault r = ("STRING_OPEN", "FAULT") := by
  simp only [assignFault, FAULT_CATALOG, assignFaultAux]
  split_ifs with a1 a2 a3 a4 a5 a6 <;> first | rfl | (exfalso; norm_num at *; linarith)

theorem assignFault_inverterTrip {r : ℝ} (h1 : 0.0024 < r) (h2 : r ≤ 0.0027) :
    assignFault r = ("INVERTER_TRIP", "FAULT") := by
  simp only [assignFault, FAULT_CATALOG, assignFaultAux]
  split_ifs with a1 a2 a3 a4 a5 a6 <;> first | rfl | (exfalso; norm_num at *; linarith)

theorem assignFault_soiling {r : ℝ} (h1 : 0.0027 < r) (h2 : r ≤ 0.0035) :
    assignFault r = ("SOILING", "WARNING") := by
  simp only [assignFault, FAULT_CATALOG, assignFaultAux]
  split_ifs with a1 a2 a3 a4 a5 a6 <;> first | rfl | (exfalso; norm_num at *; linarith)

theorem assignFault_none_right {r : ℝ} (h : 0.0035 < r) : assignFault r = ("NONE", "OK") := by
  simp only [assignFault, FAULT_CATALOG, assignFaultAux]
  split_ifs with a1 a2 a3 a4 a5 a6 <;> first | rfl | (exfalso; norm_num at *; linarith)

theorem assignFault_eq_none_iff (r : ℝ) :
    assignFault r = ("NONE", "OK") ↔ r ≤ 0 ∨ 0.0035 < r := by
  constructor
  · intro hf
    rcases le_or_lt r 0 with h | h
    · exact Or.inl h
    rcases le_or_lt r 0.0015 with h2 | h2
    · exact absurd ((assignFault_shading h h2).symm.trans hf) (by decide)
    rcases le_or_lt r 0.0020 with h3 | h3
    · exact absurd ((assignFault_hotspot h2 h3).symm.trans hf) (by decide)
    rcases le_or_lt r 0.0024 with h4 | h4
    · exact absurd ((assignFault_stringOpen h3 h4).symm.trans hf) (by decide)
    rcases le_or_lt r 0.0027 with h5 | h5
    · exact absurd ((assignFault_inverterTrip h4 h5).symm.trans hf) (by decide)
    rcases le_or_lt r 0.0035 with h6 | h6
    · exact absurd ((assignFault_soiling h5 h6).symm.trans hf) (by decide)
    · exact Or.inr h6
  · rintro (h | h)
    · exact assignFault_none_left h
    · exact assignFault_none_right h

theorem assignFault_eq_shading_iff (r : ℝ) :
    assignFault r = ("SHADING", "WARNING") ↔ 0 < r ∧ r ≤ 0.0015 := by
  constructor
  · intro hf
    rcases le_or_lt r 0 with h | h
    · exact absurd ((assignFault_none_left h).symm.trans hf) (by decide)
    rcases le_or_lt r 0.0015 with h2 | h2
    · exact ⟨h, h2⟩
    rcases le_or_lt r 0.0020 with h3 | h3
    · exact absurd ((assignFault_hotspot h2 h3).symm.trans hf) (by decide)
    rcases le_or_lt r 0.0024 with h4 | h4
    · exact absurd ((assignFault_stringOpen h3 h4).symm.trans hf) (by decide)
    rcases le_or_lt r 0.0027 with h5 | h5
    · exact absurd ((assignFault_inverterTrip h4 h5).symm.trans hf) (by decide)
    rcases le_or_lt r 0.0035 with h6 | h6
    · exact absurd ((assignFault_soiling h5 h6).symm.trans hf) (by decide)
    · exact absurd ((assignFault_none_right h6).symm.trans hf) (by decide)
  · rintro ⟨h1, h2⟩
    exact assignFault_shading h1 h2

theorem assignFault_eq_hotspot_iff (r : ℝ) :
    assignFault r = ("HOTSPOT", "FAULT") ↔ 0.0015 < r ∧ r ≤ 0.0020 := by
  constructor
  · intro hf
    rcases le_or_lt r 0 with h | h
    · exact absurd ((assignFault_none_left h).symm.trans hf) (by decide)
    rcases le_or_lt r 0.0015 with h2 | h2
    · exact absurd ((assignFault_shading h h2).symm.trans hf) (by decide)
    rcases le_or_lt r 0.0020 with h3 | h3
    · exact ⟨h2, h3⟩
    rcases le_or_lt r 0.0024 with h4 | h4
    · exact absurd ((assignFault_stringOpen h3 h4).symm.trans hf) (by decide)
    rcases le_or_lt r 0.0027 with h5 | h5
    · exact absurd ((assignFault_inverterTrip h4 h5).symm.trans hf) (by decide)
    rcases le_or_lt r 0.0035 with h6 | h6
    · exact absurd ((assignFault_soiling h5 h6).symm.trans hf) (by decide)
    · exact absurd ((assignFault_none_right h6).symm.trans hf) (by decide)
  · rintro ⟨h1, h2⟩
    exact assignFault_hotspot h1 h2

theorem assignFault_eq_stringOpen_iff (r : ℝ) :
    assignFault r = ("STRING_OPEN", "FAULT") ↔ 0.0020 < r ∧ r ≤ 0.0024 := by
  constructor
  · intro hf
    rcases le_or_lt r 0 with h | h
    · exact absurd ((assignFault_none_left h).symm.trans hf) (by decide)
    rcases le_or_lt r 0.0015 with h2 | h2
    · exact absurd ((assignFault_shading h h2).symm.trans hf) (by decide)
    rcases le_or_lt r 0.0020 with h3 | h3
    · exact absurd ((assignFault_hotspot h2 h3).symm.trans hf) (by decide)
    rcases le_or_lt r 0.0024 with h4 | h4
    · exact ⟨h3, h4⟩
    rcases le_or_lt r 0.0027 with h5 | h5
    · exact absurd ((assignFault_inverterTrip h4 h5).symm.trans hf) (by decide)
    rcases le_or_lt r 0.0035 with h6 | h6
    · exact absurd ((assignFault_soiling h5 h6).symm.trans hf) (by decide)
    · exact absurd ((assignFault_none_right h6).symm.trans hf) (by decide)
  · rintro ⟨h1, h2⟩
    exact assignFault_stringOpen h1 h2

theorem assignFault_eq_inverterTrip_iff (r : ℝ) :
    assignFault r = ("INVERTER_TRIP", "FAULT") ↔ 0.0024 < r ∧ r ≤ 0.0027 := by
  constructor
  · intro hf
    rcases le_or_lt r 0 with h | h
    · exact absurd ((assignFault_none_left h).symm.trans hf) (by decide)
    rcases le_or_lt r 0.0015 with h2 | h2
    · exact absurd ((assignFault_shading h h2).symm.trans hf) (by decide)
    rcases le_or_lt r 0.0020 with h3 | h3
    · exact absurd ((assignFault_hotspot h2 h3).symm.trans hf) (by decide)
    rcases le_or_lt r 0.0024 with h4 | h4
    · exact absurd ((assignFault_stringOpen h3 h4).symm.trans hf) (by decide)
    rcases le_or_lt r 0.0027 with h5 | h5
    · exact ⟨h4, h5⟩
    rcases le_or_lt r 0.0035 with h6 | h6
    · exact absurd ((assignFault_soiling h5 h6).symm.trans hf) (by decide)
    · exact absurd ((assignFault_none_right h6).symm.trans hf) (by decide)
  · rintro ⟨h1, h2⟩
    exact assignFault_inverterTrip h1 h2

theorem assignFault_eq_soiling_iff (r : ℝ) :
    assignFault r = ("SOILING", "WARNING") ↔ 0.0027 < r ∧ r ≤ 0.0035 := by
  constructor
  · intro hf
    rcases le_or_lt r 0 with h | h
    · exact absurd ((assignFault_none_left h).symm.trans hf) (by decide)
    rcases le_or_lt r 0.0015 with h2 | h2
    · exact absurd ((assignFault_shading h h2).symm.trans hf) (by decide)
    rcases le_or_lt r 0.0020 with h3 | h3
    · exact absurd ((assignFault_hotspot h2 h3).symm.trans hf) (by decide)
    rcases le_or_lt r 0.0024 with h4 | h4
    · exact absurd ((assignFault_stringOpen h3 h4).symm.trans hf) (by decide)
    rcases le_or_lt r 0.0027 with h5 | h5
    · exact absurd ((assignFault_inverterTrip h4 h5).symm.trans hf) (by decide)
    rcases le_or_lt r 0.0035 with h6 | h6
    · exact ⟨h5, h6⟩
    · exact absurd ((assignFault_none_right h6).symm.trans hf) (by decide)
  · rintro ⟨h1, h2⟩
    exact assignFault_soiling h1 h2

/-! Helper lemmas computing the sample sets of each fault outcome over a
uniform(0,1) sample, and their Lebesgue volumes. -/

theorem shading_sample_set :
    {r : ℝ | r ∈ Set.Ico (0 : ℝ) 1 ∧ assignFault r = ("SHADING", "WARNING")} =
      Set.Ioc (0 : ℝ) 0.0015 := by
  ext r
  simp only [Set.mem_setOf_eq, Set.mem_Ico, Set.mem_Ioc, assignFault_eq_shading_iff]
  constructor
  · rintro ⟨_, h⟩
    exact h
  · rintro ⟨h1, h2⟩
    exact ⟨⟨h1.le, by linarith⟩, h1, h2⟩

theorem hotspot_sample_set :
    {r : ℝ | r ∈ Set.Ico (0 : ℝ) 1 ∧ assignFault r = ("HOTSPOT", "FAULT")} =
      Set.Ioc (0.0015 : ℝ) 0.0020 := by
  ext r
  simp only [Set.mem_setOf_eq, Set.mem_Ico, Set.mem_Ioc, assignFault_eq_hotspot_iff]
  constructor
  · rintro ⟨_, h⟩
    exact h
  · rintro ⟨h1, h2⟩
    exact ⟨⟨by linarith, by linarith⟩, h1, h2⟩

theorem stringOpen_sample_set :
    {r : ℝ | r ∈ Set.Ico (0 : ℝ) 1 ∧ assignFault r = ("STRING_OPEN", "FAULT")} =
      Set.Ioc (0.0020 : ℝ) 0.0024 := by
  ext r
  simp only [Set.mem_setOf_eq, Set.mem_Ico, Set.mem_Ioc, assignFault_eq_stringOpen_iff]
  constructor
  · rintro ⟨_, h⟩
    exact h
  · rintro ⟨h1, h2⟩
    exact ⟨⟨by linarith, by linarith⟩, h1, h2⟩

theorem inverterTrip_sample_set :
    {r : ℝ | r ∈ Set.Ico (0 : ℝ) 1 ∧ assignFault r = ("INVERTER_TRIP", "FAULT")} =
      Set.Ioc (0.0024 : ℝ) 0.0027 := by
  ext r
  simp only [Set.mem_setOf_eq, Set.mem_Ico, Set.mem_Ioc, assignFault_eq_inverterTrip_iff]
  constructor
  · rintro ⟨_, h⟩
    exact h
  · rintro ⟨h1, h2⟩
    exact ⟨⟨by linarith, by linarith⟩, h1, h2⟩

theorem soiling_sample_set :
    {r : ℝ | r ∈ Set.Ico (0 : ℝ) 1 ∧ assignFault r = ("SOILING", "WARNING")} =
      Set.Ioc (0.0027 : ℝ) 0.0035 := by
  ext r
  simp only [Set.mem_setOf_eq, Set.mem_Ico, Set.mem_Ioc, assignFault_eq_soiling_iff]
  constructor
  · rintro ⟨_, h⟩
    exact h
  · rintro ⟨h1, h2⟩
    exact ⟨⟨by linarith, by linarith⟩, h1, h2⟩

theorem none_sample_set :
    {r : ℝ | r ∈ Set.Ico (0 : ℝ) 1 ∧ assignFault r = ("NONE", "OK")} =
      {(0 : ℝ)} ∪ Set.Ioo (0.0035 : ℝ) 1 := by
  ext r
  simp only [Set.mem_setOf_eq, Set.mem_Ico, Set.mem_union, Set.mem_singleton_iff,
    Set.mem_Ioo, assignFault_eq_none_iff]
  constructor
  · rintro ⟨⟨h0, h1⟩, h | h⟩
    · exact Or.inl (le_antisymm h h0)
    · exact Or.inr ⟨h, h1⟩
  · rintro (h | ⟨h1, h2⟩)
    · subst h
      exact ⟨⟨le_refl 0, one_pos⟩, Or.inl (le_refl 0)⟩
    · exact ⟨⟨by linarith, h2⟩, Or.inr h1⟩

theorem none_sample_volume :
    MeasureTheory.volume {r : ℝ | r ∈ Set.Ico (0 : ℝ) 1 ∧ assignFault r = ("NONE", "OK")} =
      ENNReal.ofReal 0.9965 := by
  rw [none_sample_set, MeasureTheory.measure_union (by simp; norm_num) measurableSet_Ioo,
    Real.volume_singleton, Real.volume_Ioo, zero_add]
  congr 1
  norm_num

/-! Projections of `computeTelemetry`, definitional. -/

theorem computeTelemetry_power (spec : PanelSpec) (ts : Timestamp) (dlStart dlEnd : ℤ)
    (dayIndex : ℕ) (cloudFactor : ℝ) (d : Draws) :
    (computeTelemetry spec ts dlStart dlEnd dayIndex cloudFactor d).power_w =
      roundTo 2 (max 0.0 (pAfterFaultW spec ts dlStart dlEnd dayIndex cloudFactor d)) := rfl

theorem computeTelemetry_voltage (spec : PanelSpec) (ts : Timestamp) (dlStart dlEnd : ℤ)
    (dayIndex : ℕ) (cloudFactor : ℝ) (d : Draws) :
    (computeTelemetry spec ts dlStart dlEnd dayIndex cloudFactor d).voltage_v =
      roundTo 2 (max 0.0 (vInternal spec ts dlStart dlEnd dayIndex cloudFactor d)) := rfl

theorem computeTelemetry_current (spec : PanelSpec) (ts : Timestamp) (dlStart dlEnd : ℤ)
    (dayIndex : ℕ) (cloudFactor : ℝ) (d : Draws) :
    (computeTelemetry spec ts dlStart dlEnd dayIndex cloudFactor d).current_a =
      roundTo 3 (max 0.0
        (if vInternal spec ts dlStart dlEnd dayIndex cloudFactor d > 0 then
          pAfterFaultW spec ts dlStart dlEnd dayIndex cloudFactor d /
            vInternal spec ts dlStart dlEnd dayIndex cloudFactor d
        else 0.0)) := rfl

theorem computeTelemetry_irr (spec : PanelSpec) (ts : Timestamp) (dlStart dlEnd : ℤ)
    (dayIndex : ℕ) (cloudFactor : ℝ) (d : Draws) :
    (computeTelemetry spec ts dlStart dlEnd dayIndex cloudFactor d).irradiance_wm2 =
      roundTo 1 (if irradianceWm2 ts dlStart dlEnd cloudFactor < 1.0 then 0.0
        else irradianceWm2 ts dlStart dlEnd cloudFactor) := rfl

/-! Bounds for the staged power values. -/

theorem pDcW_nonneg (spec : PanelSpec) (ts : Timestamp) (dlStart dlEnd : ℤ)
    (dayIndex : ℕ) (cloudFactor noise : ℝ) :
    0 ≤ pDcW spec ts dlStart dlEnd dayIndex cloudFactor noise := by
  simp only [pDcW]
  exact le_max_of_le_left (by norm_num)

theorem pDcW_le_cap (spec : PanelSpec) (ts : Timestamp) (dlStart dlEnd : ℤ)
    (dayIndex : ℕ) (cloudFactor noise : ℝ) (hp : 0 ≤ spec.p_stc_w * 1.10) :
    pDcW spec ts dlStart dlEnd dayIndex cloudFactor noise ≤ spec.p_stc_w * 1.10 := by
  simp only [pDcW]
  exact max_le (by linarith) (min_le_left _ _)

theorem pAfterFaultW_nonneg (spec : PanelSpec) (ts : Timestamp) (dlStart dlEnd : ℤ)
    (dayIndex : ℕ) (cloudFactor : ℝ) (d : Draws) (hd : d.InRange) :
    0 ≤ pAfterFaultW spec ts dlStart dlEnd dayIndex cloudFactor d := by
  obtain ⟨-, -, -, -, -, -, -, -, hsh, -, hhp, -, -, -, hso, -⟩ := hd
  have h0 := pDcW_nonneg spec ts dlStart dlEnd dayIndex cloudFactor d.noise
  simp only [pAfterFaultW]
  split_ifs
  · exact mul_nonneg h0 (by linarith)
  · exact mul_nonneg h0 (by linarith)
  · norm_num
  · norm_num
  · exact mul_nonneg h0 (by linarith)
  · exact h0
  · exact h0

theorem pAfterFaultW_le_cap (spec : PanelSpec) (ts : Timestamp) (dlStart dlEnd : ℤ)
    (dayIndex : ℕ) (cloudFactor : ℝ) (d : Draws) (hp : 0 < spec.p_stc_w) (hd : d.InRange) :
    pAfterFaultW spec ts dlStart dlEnd dayIndex cloudFactor d ≤ spec.p_stc_w * 1.10 := by
  obtain ⟨-, -, -, -, -, -, -, -, -, hsh, -, hhp, -, -, -, hso⟩ := hd
  have hcap : (0 : ℝ) ≤ spec.p_stc_w * 1.10 := by nlinarith
  have h0 := pDcW_nonneg spec ts dlStart dlEnd dayIndex cloudFactor d.noise
  have hle := pDcW_le_cap spec ts dlStart dlEnd dayIndex cloudFactor d.noise hcap
  simp only [pAfterFaultW]
  split_ifs
  · exact le_trans (mul_le_of_le_one_right h0 (show d.shading ≤ 1 by linarith)) hle
  · exact le_trans (mul_le_of_le_one_right h0 (show d.hotspotP ≤ 1 by linarith)) hle
  · linarith
  · linarith
  · exact le_trans (mul_le_of_le_one_right h0 (show d.soiling ≤ 1 by linarith)) hle
  · exact hle
  · exact hle

/-! Concrete evaluations of the environment model. -/

theorem diurnal_noon : diurnalIrradianceFactor noonTs 21600 64800 = 0.85 := by
  have hssm : secondsSinceMidnight noonTs = 43200 := by norm_num [secondsSinceMidnight, noonTs]
  simp only [diurnalIrradianceFactor, hssm]
  rw [if_neg (by norm_num)]
  have hx : ((((43200 : ℕ) : ℝ)) - ((21600 : ℤ) : ℝ)) / (((64800 : ℤ) : ℝ) - ((21600 : ℤ) : ℝ)) =
      1 / 2 := by
    push_cast
    norm_num
  rw [hx]
  have hsin : Real.pi * (1 / 2) = Real.pi / 2 := by ring
  rw [hsin, Real.sin_pi_div_two]
  rw [if_neg (by norm_num)]
  rw [Real.one_rpow]
  norm_num [smoothstep, min_def, max_def]

theorem ambient_morning (base : ℝ) : ambientTemperatureC ⟨8, 0, 0⟩ base = base + 8 := by
  have hssm : secondsSinceMidnight ⟨8, 0, 0⟩ = 28800 := by norm_num [secondsSinceMidnight]
  rw [ambientTemperatureC, hssm]
  have harg : ((28800 : ℕ) : ℝ) / 86400.0 * 2 * Real.pi - Real.pi / 6 = Real.pi / 2 := by
    push_cast
    ring
  rw [harg, Real.sin_pi_div_two]
  norm_num

theorem ambient_noon : ambientTemperatureC noonTs = 30 := by
  have hssm : secondsSinceMidnight noonTs = 43200 := by norm_num [secondsSinceMidnight, noonTs]
  rw [ambientTemperatureC, hssm]
  have harg : ((43200 : ℕ) : ℝ) / 86400.0 * 2 * Real.pi - Real.pi / 6 =
      Real.pi - Real.pi / 6 := by
    push_cast
    ring
  rw [harg, Real.sin_pi_sub, Real.sin_pi_div_six]
  norm_num

theorem ambient_afternoon_lt : ambientTemperatureC ⟨15, 0, 0⟩ 26 < 26 := by
  have hssm : secondsSinceMidnight ⟨15, 0, 0⟩ = 54000 := by norm_num [secondsSinceMidnight]
  rw [ambientTemperatureC, hssm]
  have harg : ((54000 : ℕ) : ℝ) / 86400.0 * 2 * Real.pi - Real.pi / 6 =
      Real.pi + Real.pi / 12 := by
    push_cast
    ring
  rw [harg]
  have hneg : Real.sin (Real.pi + Real.pi / 12) = -Real.sin (Real.pi / 12) := by
    rw [Real.sin_add, Real.sin_pi, Real.cos_pi]
    ring
  have hpos : 0 < Real.sin (Real.pi / 12) :=
    Real.sin_pos_of_pos_of_lt_pi (by positivity)
      (div_lt_self Real.pi_pos (by norm_num))
  rw [hneg]
  linarith

theorem smoothstep_nonneg {x : ℝ} (hx : 0 ≤ x) : 0 ≤ smoothstep x := by
  have h3 : 0 ≤ x ^ 3 := pow_nonneg hx 3
  have hq : 0 ≤ x ^ 3 * (4 * x - 5) ^ 2 := mul_nonneg h3 (sq_nonneg _)
  simp only [smoothstep]
  nlinarith [hq, h3]

/-! Outside the daylight window the whole power chain is exactly zero. -/

theorem diurnal_outside (ts : Timestamp) (dlStart dlEnd : ℤ)
    (h : (secondsSinceMidnight ts : ℤ) ≤ dlStart ∨ (secondsSinceMidnight ts : ℤ) ≥ dlEnd) :
    diurnalIrradianceFactor ts dlStart dlEnd = 0 := by
  rw [diurnalIrradianceFactor, if_pos h]

theorem irradianceWm2_outside (ts : Timestamp) (dlStart dlEnd : ℤ) (cloudFactor : ℝ)
    (h : (secondsSinceMidnight ts : ℤ) ≤ dlStart ∨ (secondsSinceMidnight ts : ℤ) ≥ dlEnd) :
    irradianceWm2 ts dlStart dlEnd cloudFactor = 0 := by
  rw [irradianceWm2, diurnal_outside ts dlStart dlEnd h]
  ring

theorem pDcW_outside (spec : PanelSpec) (ts : Timestamp) (dlStart dlEnd : ℤ)
    (dayIndex : ℕ) (cloudFactor noise : ℝ)
    (h : (secondsSinceMidnight ts : ℤ) ≤ dlStart ∨ (secondsSinceMidnight ts : ℤ) ≥ dlEnd) :
    pDcW spec ts dlStart dlEnd dayIndex cloudFactor noise = 0 := by
  simp only [pDcW, irradianceWm2_outside ts dlStart dlEnd cloudFactor h, zero_div, mul_zero,
    zero_mul]
  rw [max_eq_left (le_trans (min_le_right _ _) (by norm_num))]
  norm_num

theorem pAfterFaultW_of_pDc_zero (spec : PanelSpec) (ts : Timestamp) (dlStart dlEnd : ℤ)
    (dayIndex : ℕ) (cloudFactor : ℝ) (d : Draws)
    (h : pDcW spec ts dlStart dlEnd dayIndex cloudFactor d.noise = 0) :
    pAfterFaultW spec ts dlStart dlEnd dayIndex cloudFactor d = 0 := by
  simp only [pAfterFaultW, h]
  split_ifs <;> norm_num

/-! Concrete evaluation of the clamped power chain on `overSpec` at noon. -/

theorem otm_south : orientationTiltModifier 180 25 = 1 := by
  simp only [orientationTiltModifier]
  norm_num [min_def, max_def]

theorem irr_noon : irradianceWm2 noonTs 21600 64800 1 = 850 := by
  rw [irradianceWm2, diurnal_noon]
  norm_num

theorem overSpec_pDc : pDcW overSpec noonTs 21600 64800 0 1 baseDraws.noise = 440.0055 := by
  simp only [pDcW, irr_noon, overSpec, baseDraws, otm_south]
  norm_num [min_def, max_def]

theorem overSpec_pAfterFault :
    pAfterFaultW overSpec noonTs 21600 64800 0 1 baseDraws = 440.0055 := by
  have hf : assignFault baseDraws.faultR = ("NONE", "OK") := by
    simp only [baseDraws]
    exact assignFault_none_right (by norm_num)
  simp only [pAfterFaultW, hf, overSpec_pDc]
  norm_num

theorem roundTo_two_overcap : roundTo 2 (440.0055 : ℝ) = 440.01 := by
  rw [roundTo]
  have h1 : (440.0055 : ℝ) * 10 ^ 2 = 44000.55 := by norm_num
  rw [h1, pyRound]
  have hfl : ⌊(44000.55 : ℝ)⌋ = 44000 := by
    rw [Int.floor_eq_iff]
    constructor <;> norm_num
  rw [if_neg (by rw [hfl]; norm_num), round_eq]
  have hfl2 : ⌊(44000.55 : ℝ) + 1 / 2⌋ = 44001 := by
    rw [Int.floor_eq_iff]
    constructor <;> norm_num
  rw [hfl2]
  norm_num

/-! Fleet length. -/

theorem generateFleetAux_length (gen : ℤ → ℕ → ℝ) :
    ∀ (k i : ℕ) (s : RandomState), (generateFleetAux gen k i s).1.length = k := by
  intro k
  induction k with
  | zero => intro i s; rfl
  | succ k ih => intro i s; simp only [generateFleetAux, List.length_cons, ih]

/-! The claims. -/

/-- C1 (amended): for every timestamp and base, `ambient_temperature_c` equals
`base + 8·sin((seconds_since_midnight/86400)·2π − π/6)`; the daily maximum of
this cycle occurs at 08:00 local-clock time (ssm = 28800), since the sine
argument there is `π/2` — not at 15:00 as the claim states. -/
theorem claim1_ambient_cycle (ts : Timestamp) (base : ℝ) :
    ambientTemperatureC ts base =
      base + 8 * Real.sin ((secondsSinceMidnight ts : ℝ) / 86400 * (2 * Real.pi) - Real.pi / 6) ∧
    ambientTemperatureC ts base ≤ ambientTemperatureC ⟨8, 0, 0⟩ base := by
  constructor
  · rw [ambientTemperatureC]
    have harg : (secondsSinceMidnight ts : ℝ) / 86400.0 * 2 * Real.pi - Real.pi / 6 =
        (secondsSinceMidnight ts : ℝ) / 86400 * (2 * Real.pi) - Real.pi / 6 := by
      norm_num
      ring
    rw [harg]
    norm_num
  · rw [ambient_morning, ambientTemperatureC]
    have := Real.sin_le_one
      ((secondsSinceMidnight ts : ℝ) / 86400.0 * 2 * Real.pi - Real.pi / 6)
    linarith

/-- C1 counterexample: the ambient temperature at 15:00 (ssm = 54000) is
strictly below the value at 08:00 (ssm = 28800), so the daily maximum does not
occur at 15:00 as the claim states. -/
theorem claim1_counterexample :
    ambientTemperatureC ⟨15, 0, 0⟩ 26 < ambientTemperatureC ⟨8, 0, 0⟩ 26 := by
  rw [ambient_morning]
  have := ambient_afternoon_lt
  linarith

/-- C2 (amended): `assign_fault` draws one uniform(0,1) sample and walks the
catalog in table order, returning the first entry whose cumulative mass
reaches the sample (defaulting to NONE/OK); the induced distribution gives
SHADING/WARNING probability 0.0015, HOTSPOT/FAULT 0.0005, STRING_OPEN/FAULT
0.0004, INVERTER_TRIP/FAULT 0.0003, SOILING/WARNING 0.0008, and NONE/OK the
remainder, which is exactly 0.9965 (not ≈0.9975 as the claim states).
Probabilities are the Lebesgue volumes of the sample sets inside [0,1). -/
theorem claim2_fault_distribution :
    MeasureTheory.volume
        {r : ℝ | r ∈ Set.Ico (0 : ℝ) 1 ∧ assignFault r = ("SHADING", "WARNING")} =
      ENNReal.ofReal 0.0015 ∧
    MeasureTheory.volume
        {r : ℝ | r ∈ Set.Ico (0 : ℝ) 1 ∧ assignFault r = ("HOTSPOT", "FAULT")} =
      ENNReal.ofReal 0.0005 ∧
    MeasureTheory.volume
        {r : ℝ | r ∈ Set.Ico (0 : ℝ) 1 ∧ assignFault r = ("STRING_OPEN", "FAULT")} =
      ENNReal.ofReal 0.0004 ∧
    MeasureTheory.volume
        {r : ℝ | r ∈ Set.Ico (0 : ℝ) 1 ∧ assignFault r = ("INVERTER_TRIP", "FAULT")} =
      ENNReal.ofReal 0.0003 ∧
    MeasureTheory.volume
        {r : ℝ | r ∈ Set.Ico (0 : ℝ) 1 ∧ assignFault r = ("SOILING", "WARNING")} =
      ENNReal.ofReal 0.0008 ∧
    MeasureTheory.volume
        {r : ℝ | r ∈ Set.Ico (0 : ℝ) 1 ∧ assignFault r = ("NONE", "OK")} =
      ENNReal.ofReal 0.9965 := by
  refine ⟨?_, ?_, ?_, ?_, ?_, none_sample_volume⟩
  · rw [shading_sample_set, Real.volume_Ioc]
    congr 1
    norm_num
  · rw [hotspot_sample_set, Real.volume_Ioc]
    congr 1
    norm_num
  · rw [stringOpen_sample_set, Real.volume_Ioc]
    congr 1
    norm_num
  · rw [inverterTrip_sample_set, Real.volume_Ioc]
    congr 1
    norm_num
  · rw [soiling_sample_set, Real.volume_Ioc]
    congr 1
    norm_num

/-- C2 counterexample: the probability of NONE/OK is exactly 0.9965 (the fault
masses sum to 0.0035), not 0.9975 as the claim's "approximately 0.9975"
states: the two differ by 0.001, ten times the catalog's 0.0001 granularity. -/
theorem claim2_counterexample :
    MeasureTheory.volume
        {r : ℝ | r ∈ Set.Ico (0 : ℝ) 1 ∧ assignFault r = ("NONE", "OK")} =
      ENNReal.ofReal 0.9965 ∧
    MeasureTheory.volume
        {r : ℝ | r ∈ Set.Ico (0 : ℝ) 1 ∧ assignFault r = ("NONE", "OK")} ≠
      ENNReal.ofReal 0.9975 := by
  refine ⟨none_sample_volume, ?_⟩
  rw [none_sample_volume]
  intro h
  have := (ENNReal.ofReal_eq_ofReal_iff (by norm_num) (by norm_num)).mp h
  norm_num at this

/-- C3 (amended): for every panel spec with positive rated power and draws in
their documented ranges, the emitted `power_w` lies in
`[0, 1.10·p_stc_w + 0.005]`: the pre-rounding power is clamped to
`[0, 1.10·p_stc_w]` and fault side effects only reduce it, but the 2-decimal
rounding can push the emitted value up to 0.005 above `1.10·p_stc_w`. -/
theorem claim3_power_bound (spec : PanelSpec) (ts : Timestamp) (dlStart dlEnd : ℤ)
    (dayIndex : ℕ) (cloudFactor : ℝ) (d : Draws) (hp : 0 < spec.p_stc_w) (hd : d.InRange) :
    0 ≤ (computeTelemetry spec ts dlStart dlEnd dayIndex cloudFactor d).power_w ∧
    (computeTelemetry spec ts dlStart dlEnd dayIndex cloudFactor d).power_w ≤
      1.10 * spec.p_stc_w + 0.005 := by
  rw [computeTelemetry_power]
  constructor
  · exact roundTo_nonneg 2 (le_max_of_le_left (by norm_num))
  · have hle := pAfterFaultW_le_cap spec ts dlStart dlEnd dayIndex cloudFactor d hp hd
    have hmax : max 0.0 (pAfterFaultW spec ts dlStart dlEnd dayIndex cloudFactor d) ≤
        spec.p_stc_w * 1.10 := max_le (by nlinarith) hle
    have hr := roundTo_le_add 2 (max 0.0 (pAfterFaultW spec ts dlStart dlEnd dayIndex cloudFactor d))
    have h2 : (1 : ℝ) / (2 * 10 ^ 2) = 0.005 := by norm_num
    rw [h2] at hr
    linarith

/-- C3 witness of the amended bound at a concrete input. -/
theorem claim3_witness :
    0 ≤ (computeTelemetry plainSpec noonTs 21600 64800 0 1 baseDraws).power_w ∧
    (computeTelemetry plainSpec noonTs 21600 64800 0 1 baseDraws).power_w ≤
      1.10 * plainSpec.p_stc_w + 0.005 :=
  claim3_power_bound plainSpec noonTs 21600 64800 0 1 baseDraws
    (by norm_num [plainSpec]) (by norm_num [Draws.InRange, baseDraws])

/-- C3 counterexample: on a spec with `p_stc_w = 400.005` (cap 440.0055) whose
jitter makes the clamp bind, with in-range draws and clear sky, the emitted
2-decimal `power_w` is 440.01, which exceeds `1.10 · p_stc_w = 440.0055`, so
the claim's bound `power_w ≤ 1.10·p_stc_w` on the rounded value fails. -/
theorem claim3_counterexample :
    1.10 * overSpec.p_stc_w <
      (computeTelemetry overSpec noonTs 21600 64800 0 1 baseDraws).power_w := by
  rw [computeTelemetry_power, overSpec_pAfterFault]
  rw [show max (0.0 : ℝ) 440.0055 = 440.0055 from by norm_num]
  rw [roundTo_two_overcap]
  simp only [overSpec]
  norm_num

/-- C4: for every panel spec, timestamp, window, day index, cloud factor and
draw outcome, the emitted `power_w`, `voltage_v` and `current_a` are
non-negative, by the final clamps of lines 282-284 and monotonicity of
rounding. -/
theorem claim4_nonnegative (spec : PanelSpec) (ts : Timestamp) (dlStart dlEnd : ℤ)
    (dayIndex : ℕ) (cloudFactor : ℝ) (d : Draws) :
    0 ≤ (computeTelemetry spec ts dlStart dlEnd dayIndex cloudFactor d).power_w ∧
    0 ≤ (computeTelemetry spec ts dlStart dlEnd dayIndex cloudFactor d).voltage_v ∧
    0 ≤ (computeTelemetry spec ts dlStart dlEnd dayIndex cloudFactor d).current_a := by
  refine ⟨?_, ?_, ?_⟩
  · rw [computeTelemetry_power]
    exact roundTo_nonneg 2 (le_max_of_le_left (by norm_num))
  · rw [computeTelemetry_voltage]
    exact roundTo_nonneg 2 (le_max_of_le_left (by norm_num))
  · rw [computeTelemetry_current]
    exact roundTo_nonneg 3 (le_max_of_le_left (by norm_num))

/-- C5: whenever the fault assigned inside `compute_telemetry` is STRING_OPEN
or INVERTER_TRIP, the record has `power_w = 0` and `current_a = 0`, for every
panel spec, irradiance and previously computed baseline. -/
theorem claim5_fault_zero (spec : PanelSpec) (ts : Timestamp) (dlStart dlEnd : ℤ)
    (dayIndex : ℕ) (cloudFactor : ℝ) (d : Draws)
    (h : (assignFault d.faultR).1 = "STRING_OPEN" ∨ (assignFault d.faultR).1 = "INVERTER_TRIP") :
    (computeTelemetry spec ts dlStart dlEnd dayIndex cloudFactor d).power_w = 0 ∧
    (computeTelemetry spec ts dlStart dlEnd dayIndex cloudFactor d).current_a = 0 := by
  have hp2 : pAfterFaultW spec ts dlStart dlEnd dayIndex cloudFactor d = 0 := by
    simp only [pAfterFaultW]
    rcases h with h | h <;> rw [h]
    · rw [if_pos (by decide), if_neg (by decide), if_neg (by decide), if_pos rfl]
      norm_num
    · rw [if_pos (by decide), if_neg (by decide), if_neg (by decide), if_neg (by decide),
        if_pos rfl]
      norm_num
  constructor
  · rw [computeTelemetry_power, hp2, show max (0.0 : ℝ) 0 = 0 from by norm_num, roundTo_zero]
  · rw [computeTelemetry_current, hp2]
    have hcur : (if vInternal spec ts dlStart dlEnd dayIndex cloudFactor d > 0 then
        (0 : ℝ) / vInternal spec ts dlStart dlEnd dayIndex cloudFactor d else 0.0) = 0 := by
      split_ifs <;> norm_num
    rw [hcur, show max (0.0 : ℝ) 0 = 0 from by norm_num, roundTo_zero]

/-- C5 witness: a concrete draw vector whose fault sample 0.0022 lands in the
STRING_OPEN interval zeroes the emitted power and current. -/
theorem claim5_witness :
    (computeTelemetry plainSpec noonTs 21600 64800 0 1 stringOpenDraws).power_w = 0 ∧
    (computeTelemetry plainSpec noonTs 21600 64800 0 1 stringOpenDraws).current_a = 0 :=
  claim5_fault_zero plainSpec noonTs 21600 64800 0 1 stringOpenDraws
    (Or.inl (by
      have hs := assignFault_stringOpen (r := 0.0022) (by norm_num) (by norm_num)
      simp only [stringOpenDraws, hs]))

/-- C6: with `window_start < window_end`, `diurnal_irradiance_factor` is
exactly 0 at and outside the window boundaries, and lies in (0, 1] strictly
inside the window. -/
theorem claim6_diurnal_window (dlStart dlEnd : ℤ) (ts : Timestamp) (hlt : dlStart < dlEnd) :
    (((secondsSinceMidnight ts : ℤ) ≤ dlStart ∨ (secondsSinceMidnight ts : ℤ) ≥ dlEnd) →
      diurnalIrradianceFactor ts dlStart dlEnd = 0) ∧
    (dlStart < (secondsSinceMidnight ts : ℤ) → (secondsSinceMidnight ts : ℤ) < dlEnd →
      0 < diurnalIrradianceFactor ts dlStart dlEnd ∧
        diurnalIrradianceFactor ts dlStart dlEnd ≤ 1) := by
  constructor
  · intro h
    exact diurnal_outside ts dlStart dlEnd h
  · intro h1 h2
    simp only [diurnalIrradianceFactor]
    rw [if_neg (by push_neg; exact ⟨h1, h2⟩)]
    have hspan : (0 : ℝ) < (dlEnd : ℝ) - (dlStart : ℝ) := by
      have : (dlStart : ℝ) < (dlEnd : ℝ) := Int.cast_lt.mpr hlt
      linarith
    have hs1 : (dlStart : ℝ) < (secondsSinceMidnight ts : ℝ) := by
      have h1' : ((dlStart : ℤ) : ℝ) < (((secondsSinceMidnight ts : ℤ)) : ℝ) := Int.cast_lt.mpr h1
      push_cast at h1'
      linarith
    have hs2 : (secondsSinceMidnight ts : ℝ) < (dlEnd : ℝ) := by
      have h2' : (((secondsSinceMidnight ts : ℤ)) : ℝ) < ((dlEnd : ℤ) : ℝ) := Int.cast_lt.mpr h2
      push_cast at h2'
      linarith
    set x : ℝ := ((secondsSinceMidnight ts : ℝ) - (dlStart : ℝ)) / ((dlEnd : ℝ) - (dlStart : ℝ))
      with hxdef
    have hx0 : 0 < x := div_pos (by linarith) hspan
    have hx1 : x < 1 := (div_lt_one hspan).mpr (by linarith)
    have hbase : 0 < Real.sin (Real.pi * x) :=
      Real.sin_pos_of_pos_of_lt_pi (mul_pos Real.pi_pos hx0) (by nlinarith [Real.pi_pos])
    rw [if_neg (not_lt.mpr hbase.le)]
    have hss : 0 ≤ smoothstep x := smoothstep_nonneg hx0.le
    have hP : 0 < Real.sin (Real.pi * x) ^ (1.5 : ℝ) * (0.7 + 0.3 * smoothstep x) :=
      mul_pos (Real.rpow_pos_of_pos hbase _) (by linarith)
    constructor
    · exact lt_max_iff.mpr (Or.inr (lt_min (by norm_num) hP))
    · exact max_le (by norm_num) (min_le_left _ _)

/-- C6 witness at the window midpoint of the default window. -/
theorem claim6_witness :
    0 < diurnalIrradianceFactor noonTs 21600 64800 ∧
    diurnalIrradianceFactor noonTs 21600 64800 ≤ 1 :=
  (claim6_diurnal_window 21600 64800 noonTs (by norm_num)).2
    (by norm_num [secondsSinceMidnight, noonTs]) (by norm_num [secondsSinceMidnight, noonTs])

/-- C7: `generate_panel_fleet(n, seed)` returns the same sequence of exactly
`n` panels on any two calls, whatever the generator state at entry, because it
begins with `random.seed(seed)`. -/
theorem claim7_fleet_determinism (gen : ℤ → ℕ → ℝ) (n : ℕ) (seed : ℤ)
    (s1 s2 : RandomState) :
    (generatePanelFleet gen n seed s1).1 = (generatePanelFleet gen n seed s2).1 ∧
    (generatePanelFleet gen n seed s1).1.length = n :=
  ⟨rfl, generateFleetAux_length gen n 0 ⟨seed, 0⟩⟩

/-- C8: `parse_daylight_window` is total (it is a function in the embedding:
every exception of the `try` body is mapped to `none` by
`parseDaylightWindowCore`), and whenever the string does not parse as
`HH:MM-HH:MM` it returns the default window (21600, 64800) = 06:00-18:00. -/
theorem claim8_parse_fallback (daylight : List Char)
    (h : parsesAsWindow daylight = false) :
    parseDaylightWindow daylight = (21600, 64800) := by
  rw [parseDaylightWindow]
  cases hc : parseDaylightWindowCore daylight with
  | none =>
      rw [Option.getD_none]
      norm_num [Prod.ext_iff]
  | some v =>
      rw [parsesAsWindow, hc] at h
      simp at h

/-- C8 witness: a malformed daylight string falls back to the default. -/
theorem claim8_witness :
    parsesAsWindow badWindowChars = false ∧
    parseDaylightWindow badWindowChars = (21600, 64800) :=
  ⟨by decide, claim8_parse_fallback badWindowChars (by decide)⟩

/-- C9: when seconds-since-midnight is at or outside the daylight window, the
record has `irradiance_wm2 = 0`, `power_w = 0` and `current_a = 0` exactly,
for every spec, cloud factor, fault outcome and noise outcome. -/
theorem claim9_night_zero (spec : PanelSpec) (ts : Timestamp) (dlStart dlEnd : ℤ)
    (dayIndex : ℕ) (cloudFactor : ℝ) (d : Draws)
    (h : (secondsSinceMidnight ts : ℤ) ≤ dlStart ∨ (secondsSinceMidnight ts : ℤ) ≥ dlEnd) :
    (computeTelemetry spec ts dlStart dlEnd dayIndex cloudFactor d).irradiance_wm2 = 0 ∧
    (computeTelemetry spec ts dlStart dlEnd dayIndex cloudFactor d).power_w = 0 ∧
    (computeTelemetry spec ts dlStart dlEnd dayIndex cloudFactor d).current_a = 0 := by
  have hirr := irradianceWm2_outside ts dlStart dlEnd cloudFactor h
  have hpdc := pDcW_outside spec ts dlStart dlEnd dayIndex cloudFactor d.noise h
  have hp2 := pAfterFaultW_of_pDc_zero spec ts dlStart dlEnd dayIndex cloudFactor d hpdc
  refine ⟨?_, ?_, ?_⟩
  · rw [computeTelemetry_irr, hirr, if_pos (by norm_num)]
    rw [show (0.0 : ℝ) = 0 from by norm_num, roundTo_zero]
  · rw [computeTelemetry_power, hp2, show max (0.0 : ℝ) 0 = 0 from by norm_num, roundTo_zero]
  · rw [computeTelemetry_current, hp2]
    have hcur : (if vInternal spec ts dlStart dlEnd dayIndex cloudFactor d > 0 then
        (0 : ℝ) / vInternal spec ts dlStart dlEnd dayIndex cloudFactor d else 0.0) = 0 := by
      split_ifs <;> norm_num
    rw [hcur, show max (0.0 : ℝ) 0 = 0 from by norm_num, roundTo_zero]

/-- C9 witness at 01:00, before the default window opens. -/
theorem claim9_witness :
    (computeTelemetry plainSpec nightTs 21600 64800 0 1 baseDraws).irradiance_wm2 = 0 ∧
    (computeTelemetry plainSpec nightTs 21600 64800 0 1 baseDraws).power_w = 0 ∧
    (computeTelemetry plainSpec nightTs 21600 64800 0 1 baseDraws).current_a = 0 :=
  claim9_night_zero plainSpec nightTs 21600 64800 0 1 baseDraws
    (Or.inl (by norm_num [secondsSinceMidnight, nightTs]))

/-- C10: with `v_mppt > 0` and the voltage draws in their documented ranges,
the internal MPPT voltage is strictly positive, so the emitted current is the
division branch `round(p_dc / v, 3)` and the `v ≤ 0` fallback that forces the
current to 0 is never taken. -/
theorem claim10_voltage_positive (spec : PanelSpec) (ts : Timestamp) (dlStart dlEnd : ℤ)
    (dayIndex : ℕ) (cloudFactor : ℝ) (d : Draws) (hv : 0 < spec.v_mppt) (hd : d.InRange) :
    0 < vInternal spec ts dlStart dlEnd dayIndex cloudFactor d ∧
    (computeTelemetry spec ts dlStart dlEnd dayIndex cloudFactor d).current_a =
      roundTo 3 (max 0.0 (pAfterFaultW spec ts dlStart dlEnd dayIndex cloudFactor d /
        vInternal spec ts dlStart dlEnd dayIndex cloudFactor d)) := by
  obtain ⟨-, -, hoff, -, hon, -, -, -, -, -, -, -, -, -, -, -⟩ := hd
  have h1 : 0 < vInternal spec ts dlStart dlEnd dayIndex cloudFactor d := by
    rw [vInternal]
    split_ifs
    · exact mul_pos hv (by linarith)
    · exact mul_pos hv (by linarith)
  refine ⟨h1, ?_⟩
  rw [computeTelemetry_current, if_pos h1]

/-- C10 witness at a concrete spec and in-range draw vector. -/
theorem claim10_witness :
    0 < vInternal plainSpec noonTs 21600 64800 0 1 baseDraws ∧
    (computeTelemetry plainSpec noonTs 21600 64800 0 1 baseDraws).current_a =
      roundTo 3 (max 0.0 (pAfterFaultW plainSpec noonTs 21600 64800 0 1 baseDraws /
        vInternal plainSpec noonTs 21600 64800 0 1 baseDraws)) :=
  claim10_voltage_positive plainSpec noonTs 21600 64800 0 1 baseDraws
    (by norm_num [plainSpec]) (by norm_num [Draws.InRange, baseDraws])

end SolarPanelTelemetry
